import Mathlib

/-!
# DIY-Weather-Clock-Firmware — verification of the state-and-data core

Shallow embedding of the configuration store (EEPROM layout, `loadSettings`,
`saveSettings`), the environmental fetcher (`getWeather`, `getWeatherExpired`),
and the brightness engine (`calculateDisplayBrightness_d`, `lerpU8`,
`hhmmToSeconds`) of `DIY-Weather-Clock-Firmware.ino`, together with theorems
about the spec's claims.

Modelling conventions:
* `uint8_t`/`uint16_t`/`uint32_t` values are `Nat` with explicit `% 2^w`
  where the code can truncate; Arduino `String`s holding raw bytes are
  `List Nat` (config store) or `List Char` (fetcher), since the fetcher
  manipulates text and the store manipulates bytes.
* The EEPROM is a byte store `Nat → Nat`; `saveSettings` is embedded as the
  ordered *trace* of its `EEPROM.write` calls (`saveWrites`), so that both the
  final state (by folding the trace) and the write order are visible.
* `millis()` instants are `Nat` milliseconds; the firmware reboots every 49
  days precisely to avoid `millis()` rollover, so no wraparound is modelled.
* IEEE-754 `float` arithmetic in the brightness ramp is modelled over `ℚ`;
  every concrete evaluation performed in the theorems below is exact in
  binary32 (all intermediate values are representable), so `ℚ` and `float`
  agree on them.
-/

/-! ## EEPROM model -/

/-- The byte-addressable persistent medium: address → byte. -/
def EEPROM := Nat → Nat

/-- One `EEPROM.write(addr, v)`: the `uint8_t` argument truncates to a byte. -/
def eepromWrite1 (e : EEPROM) (a v : Nat) : EEPROM :=
  fun x => if x = a then v % 256 else e x

/-- Apply an ordered trace of writes, first element first. -/
def applyWrites (e : EEPROM) : List (Nat × Nat) → EEPROM
  | [] => e
  | (a, v) :: rest => applyWrites (eepromWrite1 e a v) rest

/-- Consecutive writes of a byte list starting at address `a`. -/
def listWrites : Nat → List Nat → List (Nat × Nat)
  | _, [] => []
  | a, v :: vs => (a, v) :: listWrites (a + 1) vs

-- EEPROM addresses for configuration data (lines 48-55 of the source):
def ADDR_SSID : Nat := 0
def ADDR_PASS : Nat := 70
def ADDR_CITY : Nat := 140
def ADDR_TZ : Nat := 210
def ADDR_VARIABLES : Nat := 300
def ADDR_SIGNATURE : Nat := 500
/-- `#define DEVICE_SIGNATURE '2'` — byte value of `'2'`. -/
def DEVICE_SIGNATURE : Nat := 50

/-! ## ConfigurationRecord and the global initial state -/

/-- The configuration globals (`config_*`, lines 82-95 of the source).
Strings are byte lists (`String` payload bytes). -/
structure Config where
  wifiSSID : List Nat
  wifiPass : List Nat
  city : List Nat
  showSeconds : Bool
  imperial : Bool
  timezone : List Nat
  timezone_manual : Bool
  variableContrast : Bool
  contrastFollowSun : Bool
  dayContrast : Nat
  nightContrast : Nat
  dawnDuskDuration : Nat
  sunRise : Nat
  sunSet : Nat
deriving DecidableEq, Repr

/-- Byte list of a Lean string literal (ASCII payloads of the C literals). -/
def bytesOf (s : String) : List Nat := s.data.map Char.toNat

/-- The C++ initializers of the `config_*` globals (lines 82-95): the state the
globals hold at boot, before `loadSettings` runs. -/
def initialConfig : Config where
  wifiSSID := []
  wifiPass := []
  city := []
  showSeconds := false
  imperial := false
  timezone := bytesOf "CET-1CEST,M3.5.0/2,M10.5.0/3"
  timezone_manual := false
  variableContrast := false
  contrastFollowSun := false
  dayContrast := 255
  nightContrast := 1
  dawnDuskDuration := 30
  sunRise := 25200
  sunSet := 75600

/-! ## Config Store: reading -/

/-- `eepromReadU16` (lines 917-923): little-endian, assembled with `|=` of a
byte and a byte shifted by 8; for byte-valued reads `|` of the disjoint
bit-ranges is addition. -/
def eepromReadU16 (e : EEPROM) (addr : Nat) : Nat :=
  e addr % 256 + (e (addr + 1) % 256) * 2 ^ 8

/-- `eepromReadU32` (lines 925-933): little-endian 4-byte read. -/
def eepromReadU32 (e : EEPROM) (addr : Nat) : Nat :=
  e addr % 256 + (e (addr + 1) % 256) * 2 ^ 8 +
    (e (addr + 2) % 256) * 2 ^ 16 + (e (addr + 3) % 256) * 2 ^ 24

/-- `eepromReadString` (lines 935-948): a length byte (0 and the erased value
0xFF give the empty string, lengths clamp to `maxLen`), then that many payload
bytes into `char buf[128]`, NUL-terminated; `String(buf)` keeps the bytes up
to the first NUL (C-string constructor). -/
def eepromReadString (e : EEPROM) (baseAddr maxLen : Nat) : List Nat :=
  let len := e baseAddr % 256
  if len = 0 ∨ len = 255 then []
  else
    let len := min len maxLen
    ((List.range len).map (fun i => e (baseAddr + 1 + i) % 256)).takeWhile
      (fun b => b ≠ 0)

/-- The 4-byte signature check `s0=='C' && s1=='F' && s2=='G' &&
s3==DEVICE_SIGNATURE` (line 958; the same four reads appear in `setup`,
lines 159-162 and 190-193). -/
def sigValid (e : EEPROM) : Bool :=
  e ADDR_SIGNATURE % 256 == 67 && e (ADDR_SIGNATURE + 1) % 256 == 70 &&
    e (ADDR_SIGNATURE + 2) % 256 == 71 && e (ADDR_SIGNATURE + 3) % 256 == DEVICE_SIGNATURE

/-- `setup`'s config-portal decision (lines 190-197): portal mode iff any
signature byte mismatches or the button was held. This is the boolean through
which "no valid configuration" reaches the caller. -/
def configModeFlag (e : EEPROM) (buttonPressed : Bool) : Bool :=
  e ADDR_SIGNATURE % 256 != 67 || e (ADDR_SIGNATURE + 1) % 256 != 70 ||
    e (ADDR_SIGNATURE + 2) % 256 != 71 || e (ADDR_SIGNATURE + 3) % 256 != DEVICE_SIGNATURE ||
    buttonPressed

/-- `loadSettings` (lines 950-1049). The C function mutates the `config_*`
globals; here the pre-state is `prior` and the result is the post-state. On a
signature mismatch every global except `config_contrastFollowSun` is assigned
an explicit default (the source's default block, lines 963-979, does not
assign `config_contrastFollowSun`). On a match, all fields are decoded and
the post-decode sanitation of lines 1018-1030 is applied. -/
def loadSettings (e : EEPROM) (prior : Config) : Config :=
  if sigValid e = false then
    { wifiSSID := []
      wifiPass := []
      city := []
      timezone := bytesOf "UTC0"
      timezone_manual := false
      showSeconds := false
      imperial := false
      variableContrast := false
      contrastFollowSun := prior.contrastFollowSun
      dayContrast := 255
      nightContrast := 10
      dawnDuskDuration := 30
      sunRise := 25200
      sunSet := 75600 }
  else
    let wifiSSID := eepromReadString e ADDR_SSID 60
    let wifiPass := eepromReadString e ADDR_PASS 60
    let city := eepromReadString e ADDR_CITY 60
    let timezone0 := eepromReadString e ADDR_TZ 80
    let flags := e ADDR_VARIABLES % 256
    let timezone_manual0 := flags &&& (1 <<< 0) ≠ 0
    let showSeconds := flags &&& (1 <<< 1) ≠ 0
    let imperial := flags &&& (1 <<< 2) ≠ 0
    let variableContrast := flags &&& (1 <<< 3) ≠ 0
    let contrastFollowSun := flags &&& (1 <<< 4) ≠ 0
    let dayContrast := e (ADDR_VARIABLES + 1) % 256
    let nightContrast := e (ADDR_VARIABLES + 2) % 256
    let dawnDuskDuration0 := eepromReadU16 e (ADDR_VARIABLES + 3)
    let sunRise0 := eepromReadU32 e (ADDR_VARIABLES + 5)
    let sunSet0 := eepromReadU32 e (ADDR_VARIABLES + 9)
    -- sanity checks / fallbacks (lines 1018-1030)
    let timezone := if timezone0.length = 0 then bytesOf "UTC0" else timezone0
    let timezone_manual := if timezone0.length = 0 then false else timezone_manual0
    let sunRise := if 86399 < sunRise0 then 25200 else sunRise0
    let sunSet := if 86399 < sunSet0 then 75600 else sunSet0
    let dawnDuskDuration := if 240 < dawnDuskDuration0 then 30 else dawnDuskDuration0
    { wifiSSID := wifiSSID
      wifiPass := wifiPass
      city := city
      timezone := timezone
      timezone_manual := timezone_manual
      showSeconds := showSeconds
      imperial := imperial
      variableContrast := variableContrast
      contrastFollowSun := contrastFollowSun
      dayContrast := dayContrast
      nightContrast := nightContrast
      dawnDuskDuration := dawnDuskDuration
      sunRise := sunRise
      sunSet := sunSet }

/-! ## Config Store: writing -/

/-- `eepromWriteString` (lines 1052-1067) as a write trace: the clamped length
byte, the payload bytes, then zero-fill of the remaining `maxLen - len` slot
bytes. -/
def stringWrites (baseAddr : Nat) (s : List Nat) (maxLen : Nat) : List (Nat × Nat) :=
  let len := min s.length maxLen
  (baseAddr, len) :: listWrites (baseAddr + 1) (s.take maxLen ++ List.replicate (maxLen - len) 0)

/-- The packed boolean byte of `saveSettings` (lines 1098-1103): bits 0-4 are
manual-timezone, show-seconds, imperial, variable-contrast,
contrast-follows-sun; `|=` of the distinct single bits is addition. -/
def flagsByte (c : Config) : Nat :=
  (if c.timezone_manual then 1 else 0) + (if c.showSeconds then 2 else 0) +
    (if c.imperial then 4 else 0) + (if c.variableContrast then 8 else 0) +
    (if c.contrastFollowSun then 16 else 0)

/-- The non-string writes of `saveSettings` (lines 1106-1134): the flag
byte, the fixed-width numerics (`& 0xFF` of a right shift is `/ 2^k % 256`),
and the four signature bytes `'C' 'F' 'G' DEVICE_SIGNATURE` last. -/
def varSigWrites (c : Config) : List (Nat × Nat) :=
  [(ADDR_VARIABLES, flagsByte c),
     (ADDR_VARIABLES + 1, c.dayContrast),
     (ADDR_VARIABLES + 2, c.nightContrast),
     (ADDR_VARIABLES + 3, c.dawnDuskDuration % 256),
     (ADDR_VARIABLES + 4, c.dawnDuskDuration / 2 ^ 8 % 256),
     (ADDR_VARIABLES + 5, c.sunRise % 256),
     (ADDR_VARIABLES + 6, c.sunRise / 2 ^ 8 % 256),
     (ADDR_VARIABLES + 7, c.sunRise / 2 ^ 16 % 256),
     (ADDR_VARIABLES + 8, c.sunRise / 2 ^ 24 % 256),
     (ADDR_VARIABLES + 9, c.sunSet % 256),
     (ADDR_VARIABLES + 10, c.sunSet / 2 ^ 8 % 256),
     (ADDR_VARIABLES + 11, c.sunSet / 2 ^ 16 % 256),
     (ADDR_VARIABLES + 12, c.sunSet / 2 ^ 24 % 256),
     (ADDR_SIGNATURE, 67),
     (ADDR_SIGNATURE + 1, 70),
     (ADDR_SIGNATURE + 2, 71),
     (ADDR_SIGNATURE + 3, DEVICE_SIGNATURE)]

/-- `saveSettings` (lines 1084-1138) as the ordered trace of its EEPROM
writes: the four string slots, then the packed flags and numerics, with the
signature written last. -/
def saveWrites (c : Config) : List (Nat × Nat) :=
  stringWrites ADDR_SSID c.wifiSSID 60 ++
    stringWrites ADDR_PASS c.wifiPass 60 ++
    stringWrites ADDR_CITY c.city 60 ++
    stringWrites ADDR_TZ c.timezone 80 ++
    varSigWrites c

/-- `saveSettings` as a state transformer: fold the write trace. -/
def saveSettings (e : EEPROM) (c : Config) : EEPROM :=
  applyWrites e (saveWrites c)

/-! ## Environmental Fetcher -/

/-- The snapshot globals `weather_*` (lines 98-108). `weather_valid` itself
lives in the host loop (`weather_valid = getWeather()`), so it is the
fetcher's boolean outcome, not a field here. -/
structure WeatherState where
  temp : List Char
  cond : List Char
  hum : List Char
  wind : List Char
  press : List Char
  sundawn : List Char
  sunrise : List Char
  sunset : List Char
  sundusk : List Char
  lastSuccessfulUpdate : Nat
deriving DecidableEq, Repr

/-- The C++ initializers of the `weather_*` globals (lines 98-108). -/
def initialWeather : WeatherState where
  temp := ['N', '/', 'A']
  cond := []
  hum := []
  wind := []
  press := []
  sundawn := ['0', '7', ':', '0', '0']
  sunrise := ['0', '7', ':', '3', '0']
  sunset := ['1', '9', ':', '0', '0']
  sundusk := ['1', '9', ':', '3', '0']
  lastSuccessfulUpdate := 0

/-- Whitespace as tested by `isspace` (Arduino `String::trim`). -/
def isSpaceC (c : Char) : Bool :=
  c = ' ' || c = '\t' || c = '\n' || c = '\x0b' || c = '\x0c' || c = '\r'

/-- Arduino `String::trim`: strip leading and trailing whitespace. -/
def trimC (s : List Char) : List Char :=
  ((s.dropWhile isSpaceC).reverse.dropWhile isSpaceC).reverse

/-- `line.replace("\r", ""); line.trim();` (lines 1704-1705 / 1722-1723). -/
def cleanLine (s : List Char) : List Char :=
  trimC (s.filter (fun c => c ≠ '\r'))

/-- `getWeatherExpired` (lines 1595-1621): on a failed fetch, previously
stored data stays valid iff there ever was a success and it is less than
90 minutes (5 400 000 ms) old. -/
def getWeatherExpired (st : WeatherState) (now : Nat) : Bool :=
  if st.lastSuccessfulUpdate = 0 then false
  else if now < st.lastSuccessfulUpdate + 5400000 then true
  else false

/-- The line-extraction loop of `getWeather` (lines 1697-1730): scan the raw
response line by line for the first line that, after dropping `'\r'` and
trimming, contains `'|'`; an unterminated trailing remainder is checked as a
fallback. `cur` accumulates the current line in reverse. -/
def scanLines : List Char → List Char → List Char
  | [], cur =>
    let l := cleanLine cur.reverse
    if l.contains '|' then l else []
  | c :: rest, cur =>
    if c = '\n' then
      let l := cleanLine cur.reverse
      if l.contains '|' then l else scanLines rest []
    else scanLines rest (c :: cur)

/-- `String::indexOf(ch, from)` helper: first index `≥ i` (absolute) of `ch`
in the remaining characters. -/
def idxOfAux (s : List Char) (ch : Char) (i : Nat) : Int :=
  match s with
  | [] => -1
  | c :: rest => if c = ch then (i : Int) else idxOfAux rest ch (i + 1)

/-- Arduino `String::indexOf(ch, fromIndex)`: `-1` when absent. -/
def idxOfFrom (s : List Char) (ch : Char) (fromN : Nat) : Int :=
  idxOfAux (s.drop fromN) ch fromN

/-- Arduino `String::substring(left, right)`: the `int` arguments convert to
`unsigned int` (two's complement), then `left > right` swaps, `left ≥ len`
gives the empty string and `right` clamps to the length. -/
def substrA (s : List Char) (l r : Int) : List Char :=
  let lu : Nat := (l % 2 ^ 32).toNat
  let ru : Nat := (r % 2 ^ 32).toNat
  let lo := if lu > ru then ru else lu
  let hi := if lu > ru then lu else ru
  if lo ≥ s.length then [] else (s.take (min hi s.length)).drop lo

/-- The literal text `"N/A"`. -/
def naChars : List Char := ['N', '/', 'A']

/-- The parsed fields of one candidate line. -/
structure Parsed where
  temp : List Char
  cond : List Char
  hum : List Char
  wind : List Char
  press : List Char
  sunDawn : List Char
  sunRise : List Char
  sunSet : List Char
  sunDusk : List Char
deriving DecidableEq, Repr

/-- The parsing-and-validation block of `getWeather` (lines 1740-1800):
locate the first four `'|'` delimiters (any missing is a hard failure), cut
the five base fields, re-subdivide the tail into pressure plus the four
sun-event fields when the extended query was sent, trim temperature,
condition and humidity, substitute `"N/A"` for an empty wind or pressure,
and fail when temperature or condition is empty after trimming. -/
def parseWeatherLine (result : List Char) (sunDataAvailable : Bool) : Option Parsed :=
  let idx1 := idxOfFrom result '|' 0
  let idx2 := idxOfFrom result '|' (idx1 + 1).toNat
  let idx3 := idxOfFrom result '|' (idx2 + 1).toNat
  let idx4 := idxOfFrom result '|' (idx3 + 1).toNat
  if idx1 < 0 ∨ idx2 < 0 ∨ idx3 < 0 ∨ idx4 < 0 then none
  else
    let tempStr0 := substrA result 0 idx1
    let condStr0 := substrA result (idx1 + 1) idx2
    let humStr0 := substrA result (idx2 + 1) idx3
    let windStr0 := substrA result (idx3 + 1) idx4
    let pressBase := substrA result (idx4 + 1) result.length
    let ext :=
      if sunDataAvailable then
        let idx5 := idxOfFrom result '|' (idx4 + 1).toNat
        let idx6 := idxOfFrom result '|' (idx5 + 1).toNat
        let idx7 := idxOfFrom result '|' (idx6 + 1).toNat
        let idx8 := idxOfFrom result '|' (idx7 + 1).toNat
        (substrA result (idx4 + 1) idx5, substrA result (idx5 + 1) idx6,
          substrA result (idx6 + 1) idx7, substrA result (idx7 + 1) idx8,
          substrA result (idx8 + 1) result.length)
      else (pressBase, [], [], [], [])
    let tempStr := trimC tempStr0
    let condStr := trimC condStr0
    let humStr := trimC humStr0
    let windStr := if windStr0.length = 0 then naChars else windStr0
    let pressStr := if ext.1.length = 0 then naChars else ext.1
    if tempStr = [] ∨ condStr = [] then none
    else
      some { temp := tempStr, cond := condStr, hum := humStr, wind := windStr,
             press := pressStr, sunDawn := ext.2.1, sunRise := ext.2.2.1,
             sunSet := ext.2.2.2.1, sunDusk := ext.2.2.2.2 }

/-- The transport collaborators and ambient time of one refresh: Wi-Fi
status, whether `client.connect` succeeded, the raw multi-line response text,
and the current `millis()` tick. -/
structure FetchEnv where
  wifiConnected : Bool
  connectOk : Bool
  response : List Char
  now : Nat

/-- `getWeather` (lines 1625-1824). State passed explicitly: the snapshot
`st` and the extended-query counter `getWeatherCounter` (line 1623). The
counter test and increment are lines 1641-1647: the extended sun-data query
is sent iff `counter % 4 == 0 && variableContrast && contrastFollowSun`, and
the counter is incremented only inside that branch. Every failure return is
`getWeatherExpired` with the snapshot untouched; the success path overwrites
the five base fields, the four sun-event strings when extended data was
requested, and stamps `lastSuccessfulUpdate`. -/
def getWeather (env : FetchEnv) (variableContrast contrastFollowSun : Bool)
    (counter : Nat) (st : WeatherState) : WeatherState × Nat × Bool :=
  if env.wifiConnected = false then (st, counter, getWeatherExpired st env.now)
  else
    let sunDataAvailable := counter % 4 == 0 && variableContrast && contrastFollowSun
    let counter1 := if sunDataAvailable then counter + 1 else counter
    if env.connectOk = false then (st, counter1, getWeatherExpired st env.now)
    else
      let result := scanLines env.response []
      if result.length = 0 then (st, counter1, getWeatherExpired st env.now)
      else
        match parseWeatherLine result sunDataAvailable with
        | none => (st, counter1, getWeatherExpired st env.now)
        | some f =>
          ({ temp := f.temp
             cond := f.cond
             hum := f.hum
             wind := f.wind
             press := f.press
             sundawn := if sunDataAvailable then f.sunDawn else st.sundawn
             sunrise := if sunDataAvailable then f.sunRise else st.sunrise
             sunset := if sunDataAvailable then f.sunSet else st.sunset
             sundusk := if sunDataAvailable then f.sunDusk else st.sundusk
             lastSuccessfulUpdate := env.now },
           counter1, true)

/-! ## Brightness Engine -/

/-- A decimal digit test. -/
def isDigitC (c : Char) : Bool := '0' ≤ c ∧ c ≤ '9'

/-- `atol` digit accumulation. -/
def digitsVal (s : List Char) : Int :=
  ((s.takeWhile isDigitC).map (fun c => (c.toNat - 48 : Int))).foldl
    (fun acc d => acc * 10 + d) 0

/-- Arduino `String::toInt` (`atol`): skip leading whitespace, optional sign,
then the leading digit run; no digits give 0. -/
def toIntA (s : List Char) : Int :=
  match s.dropWhile isSpaceC with
  | '-' :: rest => -(digitsVal rest)
  | '+' :: rest => digitsVal rest
  | rest => digitsVal rest

/-- `hhmmToSeconds` (lines 1163-1174): split at the first `':'`, parse hours
and minutes, clamp to 0-23 / 0-59, return the second of day. -/
def hhmmToSeconds (hhmm : List Char) : Nat :=
  let colon := idxOfFrom hhmm ':' 0
  let h0 := toIntA (substrA hhmm 0 colon)
  let m0 := toIntA (substrA hhmm (colon + 1) hhmm.length)
  let h := if h0 < 0 then 0 else if 23 < h0 then 23 else h0
  let m := if m0 < 0 then 0 else if 59 < m0 then 59 else m0
  (h * 3600 + m * 60).toNat

/-- `lerpU8` (lines 1176-1184): clamp the fraction to `[0,1]`, blend, clamp
the blend to `[0,255]`, round to nearest by adding `0.5` and truncating.
`float` arithmetic is modelled over `ℚ` (exact at every evaluation done
below). -/
def lerpU8 (a b : Nat) (t : ℚ) : Nat :=
  if t ≤ 0 then a
  else if 1 ≤ t then b
  else
    let v : ℚ := (a : ℚ) + ((b : ℚ) - (a : ℚ)) * t
    let v := if v < 0 then 0 else v
    let v := if 255 < v then 255 else v
    (⌊v + 1 / 2⌋).toNat

/-- The wrap-aware half-open interval test of `calculateDisplayBrightness_d`
(lines 1288-1293): `x ∈ [a, b)`, allowed to wrap midnight. -/
def inRangeW (x a b : Int) : Bool :=
  if a ≤ b then a ≤ x && x < b else a ≤ x || x < b

/-- `calculateDisplayBrightness_d` (lines 1202-1333). The ambient local time
is passed explicitly: `todayStartsSec` is the local epoch of today's
midnight, `nowEpoch` the current local epoch (the source obtains both from
`getLocalTime`/`mktime`). Manual mode takes the schedule from the config;
sun-follow mode parses the snapshot's HH:MM strings. Dawn/dusk are wrapped
onto the adjacent day, the day is classified into the four segments, and the
two ramps interpolate linearly with day-length wrap correction. -/
def calculateDisplayBrightness_d (cfg : Config) (w : WeatherState)
    (todayStartsSec nowEpoch : Int) : Nat :=
  if cfg.variableContrast = false then 255
  else
    let sunset0 : Int := if !cfg.contrastFollowSun then (cfg.sunSet : Int)
      else (hhmmToSeconds w.sunset : Int)
    let sunrise0 : Int := if !cfg.contrastFollowSun then (cfg.sunRise : Int)
      else (hhmmToSeconds w.sunrise : Int)
    let sundawn0 : Int := if !cfg.contrastFollowSun then
      (cfg.sunRise : Int) - (cfg.dawnDuskDuration : Int) * 60
      else (hhmmToSeconds w.sundawn : Int)
    let sundusk0 : Int := if !cfg.contrastFollowSun then
      (cfg.sunSet : Int) + (cfg.dawnDuskDuration : Int) * 60
      else (hhmmToSeconds w.sundusk : Int)
    let SEC_PER_DAY : Int := 3600 * 24
    let sunset := sunset0 + todayStartsSec
    let sunrise := sunrise0 + todayStartsSec
    let sundawn1 := sundawn0 + todayStartsSec
    let sundusk1 := sundusk0 + todayStartsSec
    let sundawn := if sundawn1 < todayStartsSec then sundawn1 + SEC_PER_DAY else sundawn1
    let sundusk := if todayStartsSec + SEC_PER_DAY ≤ sundusk1 then sundusk1 - SEC_PER_DAY
      else sundusk1
    if inRangeW nowEpoch sundawn sunrise then
      let span : ℚ := ((sunrise - sundawn : Int) : ℚ)
      let span := if span ≤ 0 then span + (SEC_PER_DAY : ℚ) else span
      let dt : ℚ := ((nowEpoch - sundawn : Int) : ℚ)
      let dt := if dt < 0 then dt + (SEC_PER_DAY : ℚ) else dt
      lerpU8 cfg.nightContrast cfg.dayContrast (dt / span)
    else if inRangeW nowEpoch sunrise sunset then cfg.dayContrast
    else if inRangeW nowEpoch sunset sundusk then
      let span : ℚ := ((sundusk - sunset : Int) : ℚ)
      let span := if span ≤ 0 then span + (SEC_PER_DAY : ℚ) else span
      let dt : ℚ := ((nowEpoch - sunset : Int) : ℚ)
      let dt := if dt < 0 then dt + (SEC_PER_DAY : ℚ) else dt
      lerpU8 cfg.dayContrast cfg.nightContrast (dt / span)
    else cfg.nightContrast

/-! ## Concrete instances used in the witnesses -/

/-- Character list of a Lean string literal (response/snapshot text). -/
def charsOf (s : String) : List Char := s.data

/-- A fully erased-to-zero store. -/
def zeroEEPROM : EEPROM := fun _ => 0

/-- A store holding only a valid signature, all data bytes zero. -/
def sigOnlyEEPROM : EEPROM := fun x =>
  if x = 500 then 67 else if x = 501 then 70 else
    if x = 502 then 71 else if x = 503 then 50 else 0

/-- An in-bounds configuration record. -/
def sampleConfig : Config where
  wifiSSID := bytesOf "MyWifi"
  wifiPass := bytesOf "secret"
  city := bytesOf "Bilbao"
  showSeconds := true
  imperial := false
  timezone := bytesOf "UTC0"
  timezone_manual := true
  variableContrast := true
  contrastFollowSun := false
  dayContrast := 255
  nightContrast := 1
  dawnDuskDuration := 30
  sunRise := 25200
  sunSet := 75600

/-- A snapshot with a known last success at tick 600000 (10 minutes). -/
def sampleSnapshot : WeatherState where
  temp := charsOf "+21"
  cond := charsOf "Sunny"
  hum := charsOf "45%"
  wind := charsOf "11km/h"
  press := charsOf "1015hPa"
  sundawn := charsOf "06:30"
  sunrise := charsOf "07:00"
  sunset := charsOf "21:00"
  sundusk := charsOf "21:30"
  lastSuccessfulUpdate := 600000

/-- A refresh environment whose transport is down. -/
def downEnv : FetchEnv where
  wifiConnected := false
  connectOk := false
  response := []
  now := 1200000

/-- A refresh environment returning a well-formed 5-field response. -/
def okEnvBase : FetchEnv where
  wifiConnected := true
  connectOk := true
  response := charsOf "+21|Sunny|45%|11km/h|1015hPa"
  now := 7200000

/-- A refresh environment returning a well-formed 9-field response. -/
def okEnvExt : FetchEnv where
  wifiConnected := true
  connectOk := true
  response := charsOf "+21|Sunny|45%|11km/h|1015hPa|06:30|07:00|21:00|21:30"
  now := 7200000

/-- The host-loop iteration of `weather_valid = getWeather()` starting from
boot state (`initialWeather`, counter 0): state and counter after `n`
refreshes against a fixed environment. -/
def iterateRefresh (env : FetchEnv) (vc cf : Bool) : Nat → WeatherState × Nat
  | 0 => (initialWeather, 0)
  | n + 1 =>
    let p := iterateRefresh env vc cf n
    let r := getWeather env vc cf p.2 p.1
    (r.1, r.2.1)

/-- The configuration of the brightness test vector: manual schedule,
`dayContrast = 255`, `nightContrast = 1`, sunrise 07:00, sunset 21:00,
dawn/dusk ramp 30 minutes. -/
def contrastConfig : Config where
  wifiSSID := []
  wifiPass := []
  city := []
  showSeconds := false
  imperial := false
  timezone := bytesOf "UTC0"
  timezone_manual := false
  variableContrast := true
  contrastFollowSun := false
  dayContrast := 255
  nightContrast := 1
  dawnDuskDuration := 30
  sunRise := 25200
  sunSet := 75600

/-! ## Infrastructure lemmas about write traces -/

theorem applyWrites_append (l1 l2 : List (Nat × Nat)) : ∀ e : EEPROM,
    applyWrites e (l1 ++ l2) = applyWrites (applyWrites e l1) l2 := by
  induction l1 with
  | nil => intro e; rfl
  | cons p rest ih =>
    intro e
    obtain ⟨a, v⟩ := p
    simp only [List.cons_append, applyWrites]
    exact ih (eepromWrite1 e a v)

theorem applyWrites_notMem (l : List (Nat × Nat)) (x : Nat)
    (h : ∀ p ∈ l, p.1 ≠ x) : ∀ e : EEPROM, applyWrites e l x = e x := by
  induction l with
  | nil => intro e; rfl
  | cons p rest ih =>
    intro e
    obtain ⟨a, v⟩ := p
    simp only [applyWrites]
    rw [ih (fun q hq => h q (List.mem_cons_of_mem _ hq))]
    have ha : a ≠ x := h (a, v) (List.mem_cons_self _ _)
    simp only [eepromWrite1]
    rw [if_neg (fun hx => ha hx.symm)]

theorem listWrites_mem_fst (vs : List Nat) : ∀ (a : Nat) (p : Nat × Nat),
    p ∈ listWrites a vs → a ≤ p.1 ∧ p.1 < a + vs.length := by
  induction vs with
  | nil => intro a p hp; simp [listWrites] at hp
  | cons v tl ih =>
    intro a p hp
    simp only [listWrites, List.mem_cons] at hp
    rcases hp with rfl | hp
    · simp
    · have := ih (a + 1) p hp
      constructor <;> [omega; (simp only [List.length_cons]; omega)]

theorem applyWrites_listWrites (vs : List Nat) : ∀ (a i : Nat) (e : EEPROM),
    i < vs.length → applyWrites e (listWrites a vs) (a + i) = vs.getD i 0 % 256 := by
  induction vs with
  | nil => intro a i e hi; simp at hi
  | cons v tl ih =>
    intro a i e hi
    simp only [listWrites, applyWrites]
    match i with
    | 0 =>
      rw [applyWrites_notMem]
      · simp [eepromWrite1]
      · intro p hp
        have := listWrites_mem_fst tl (a + 1) p hp
        omega
    | j + 1 =>
      have hj : j < tl.length := by simpa using hi
      have : a + (j + 1) = (a + 1) + j := by omega
      rw [this, ih (a + 1) j _ hj]
      rfl

theorem stringWrites_mem_fst (b : Nat) (s : List Nat) (m : Nat) (p : Nat × Nat)
    (hp : p ∈ stringWrites b s m) : b ≤ p.1 ∧ p.1 ≤ b + m := by
  simp only [stringWrites, List.mem_cons] at hp
  rcases hp with rfl | hp
  · simp
  · have hlen : (s.take m ++ List.replicate (m - min s.length m) 0).length = m := by
      simp [List.length_take]
      omega
    have := listWrites_mem_fst _ _ _ hp
    rw [hlen] at this
    omega

theorem varSigWrites_mem_fst (c : Config) (p : Nat × Nat) (hp : p ∈ varSigWrites c) :
    (300 ≤ p.1 ∧ p.1 ≤ 312) ∨ (500 ≤ p.1 ∧ p.1 ≤ 503) := by
  simp only [varSigWrites, ADDR_VARIABLES, ADDR_SIGNATURE, List.mem_cons,
    List.not_mem_nil, or_false] at hp
  rcases hp with rfl | rfl | rfl | rfl | rfl | rfl | rfl | rfl | rfl | rfl | rfl | rfl |
    rfl | rfl | rfl | rfl | rfl <;> simp

/-- The value of the store after the non-string writes, at each address they
touch. -/
theorem varSigWrites_eval (e : EEPROM) (c : Config) :
    applyWrites e (varSigWrites c) 300 = flagsByte c % 256 ∧
    applyWrites e (varSigWrites c) 301 = c.dayContrast % 256 ∧
    applyWrites e (varSigWrites c) 302 = c.nightContrast % 256 ∧
    applyWrites e (varSigWrites c) 303 = c.dawnDuskDuration % 256 ∧
    applyWrites e (varSigWrites c) 304 = c.dawnDuskDuration / 2 ^ 8 % 256 ∧
    applyWrites e (varSigWrites c) 305 = c.sunRise % 256 ∧
    applyWrites e (varSigWrites c) 306 = c.sunRise / 2 ^ 8 % 256 ∧
    applyWrites e (varSigWrites c) 307 = c.sunRise / 2 ^ 16 % 256 ∧
    applyWrites e (varSigWrites c) 308 = c.sunRise / 2 ^ 24 % 256 ∧
    applyWrites e (varSigWrites c) 309 = c.sunSet % 256 ∧
    applyWrites e (varSigWrites c) 310 = c.sunSet / 2 ^ 8 % 256 ∧
    applyWrites e (varSigWrites c) 311 = c.sunSet / 2 ^ 16 % 256 ∧
    applyWrites e (varSigWrites c) 312 = c.sunSet / 2 ^ 24 % 256 ∧
    applyWrites e (varSigWrites c) 500 = 67 ∧
    applyWrites e (varSigWrites c) 501 = 70 ∧
    applyWrites e (varSigWrites c) 502 = 71 ∧
    applyWrites e (varSigWrites c) 503 = 50 := by
  have mod2 : ∀ n : Nat, n % 256 % 256 = n % 256 := fun n => Nat.mod_mod_of_dvd n dvd_rfl
  simp [varSigWrites, applyWrites, eepromWrite1, ADDR_VARIABLES, ADDR_SIGNATURE,
    DEVICE_SIGNATURE, mod2]

theorem takeWhile_all {α : Type} (p : α → Bool) : ∀ s : List α,
    (∀ x ∈ s, p x = true) → s.takeWhile p = s := by
  intro s
  induction s with
  | nil => intro _; rfl
  | cons a tl ih =>
    intro h
    have ha := h a (List.mem_cons_self _ _)
    simp only [List.takeWhile, ha]
    rw [ih (fun x hx => h x (List.mem_cons_of_mem _ hx))]

theorem range_map_getD (s : List Nat) :
    (List.range s.length).map (fun i => s.getD i 0) = s := by
  induction s with
  | nil => rfl
  | cons a tl ih =>
    simp only [List.length_cons, List.range_succ_eq_map, List.map_cons, List.map_map]
    refine congrArg (a :: ·) ?_
    refine Eq.trans ?_ ih
    refine List.map_congr_left ?_
    intro i _
    simp [List.getD_eq_getElem?_getD, Function.comp]


/-- `eepromReadString` reads only the bytes of its own slot
`[baseAddr, baseAddr + maxLen]`. -/
theorem eepromReadString_congr (e1 e2 : EEPROM) (b m : Nat)
    (h : ∀ x, b ≤ x → x ≤ b + m → e1 x = e2 x) :
    eepromReadString e1 b m = eepromReadString e2 b m := by
  have hb : e1 b = e2 b := h b le_rfl (by omega)
  simp only [eepromReadString, hb]
  split
  · rfl
  · have hmap : (List.range (min (e2 b % 256) m)).map (fun i => e1 (b + 1 + i) % 256) =
        (List.range (min (e2 b % 256) m)).map (fun i => e2 (b + 1 + i) % 256) := by
      refine List.map_congr_left ?_
      intro i hi
      have hi1 : i < min (e2 b % 256) m := List.mem_range.mp hi
      have hi2 : i < m := lt_of_lt_of_le hi1 (min_le_right _ _)
      rw [h (b + 1 + i) (by omega) (by omega)]
    rw [hmap]

/-- The slot written by `stringWrites` reads back as the written string,
provided the string fits the slot and consists of nonzero bytes (the payload
of a C string). -/
theorem readString_roundtrip (e : EEPROM) (b : Nat) (s : List Nat) (m : Nat)
    (hm : m < 255) (hlen : s.length ≤ m) (hbytes : ∀ x ∈ s, 0 < x ∧ x < 256) :
    eepromReadString (applyWrites e (stringWrites b s m)) b m = s := by
  have hmin : min s.length m = s.length := by omega
  have htake : s.take m = s := List.take_of_length_le hlen
  have hpadlen : (s.take m ++ List.replicate (m - min s.length m) 0).length = m := by
    simp [List.length_take]
    omega
  have hlenbyte : applyWrites e (stringWrites b s m) b = s.length := by
    simp only [stringWrites, applyWrites]
    rw [applyWrites_notMem _ _ (fun p hp => by
      have := listWrites_mem_fst _ _ _ hp; omega)]
    simp only [eepromWrite1, if_pos rfl, hmin]
    exact Nat.mod_eq_of_lt (by omega)
  have hbyte : ∀ i, i < s.length →
      applyWrites e (stringWrites b s m) (b + 1 + i) = s.getD i 0 := by
    intro i hi
    simp only [stringWrites, applyWrites]
    rw [applyWrites_listWrites _ _ _ _ (by rw [hpadlen]; omega)]
    rw [List.getD_eq_getElem?_getD, List.getElem?_append]
    rw [if_pos (by simp [htake]; omega)]
    rw [htake, ← List.getD_eq_getElem?_getD]
    have hmem : s.getD i 0 ∈ s := by
      rw [List.getD_eq_getElem?_getD, List.getElem?_eq_getElem hi]
      simp [List.getElem_mem hi]
    exact Nat.mod_eq_of_lt (hbytes _ hmem).2
  rcases Nat.eq_zero_or_pos s.length with hz | hpos
  · have hnil : s = [] := List.length_eq_zero.mp hz
    subst hnil
    simp [eepromReadString, hlenbyte]
  · have hlen255 : s.length % 256 = s.length := Nat.mod_eq_of_lt (by omega)
    simp only [eepromReadString, hlenbyte, hlen255, hmin]
    rw [if_neg (by omega)]
    have hmap : (List.range s.length).map
        (fun i => applyWrites e (stringWrites b s m) (b + 1 + i) % 256) =
        (List.range s.length).map (fun i => s.getD i 0) := by
      refine List.map_congr_left ?_
      intro i hi
      have hi' := List.mem_range.mp hi
      rw [hbyte i hi']
      have hmem : s.getD i 0 ∈ s := by
        rw [List.getD_eq_getElem?_getD, List.getElem?_eq_getElem hi']
        simp [List.getElem_mem hi']
      exact Nat.mod_eq_of_lt (hbytes _ hmem).2
    rw [hmap, range_map_getD]
    refine takeWhile_all _ s ?_
    intro x hx
    simp only [ne_eq, decide_eq_true_eq]
    exact fun h0 => by have := (hbytes x hx).1; omega

/-- Reading a string slot after later writes that all land above the slot. -/
theorem read_slot_after (e0 : EEPROM) (b : Nat) (s : List Nat) (m : Nat)
    (post : List (Nat × Nat)) (hm : m < 255) (hlen : s.length ≤ m)
    (hbytes : ∀ x ∈ s, 0 < x ∧ x < 256) (hpost : ∀ p ∈ post, b + m < p.1) :
    eepromReadString (applyWrites (applyWrites e0 (stringWrites b s m)) post) b m = s := by
  rw [eepromReadString_congr _ (applyWrites e0 (stringWrites b s m)) b m ?_]
  · exact readString_roundtrip e0 b s m hm hlen hbytes
  · intro x hx1 hx2
    exact applyWrites_notMem post x (fun p hp => by have := hpost p hp; omega) _

theorem flagsByte_lt (c : Config) : flagsByte c < 256 := by
  unfold flagsByte
  split_ifs <;> norm_num

/-- The packed flag byte decodes back to the five booleans. -/
theorem flagsByte_bits (c : Config) :
    (decide (flagsByte c &&& 1 <<< 0 ≠ 0) = c.timezone_manual) ∧
    (decide (flagsByte c &&& 1 <<< 1 ≠ 0) = c.showSeconds) ∧
    (decide (flagsByte c &&& 1 <<< 2 ≠ 0) = c.imperial) ∧
    (decide (flagsByte c &&& 1 <<< 3 ≠ 0) = c.variableContrast) ∧
    (decide (flagsByte c &&& 1 <<< 4 ≠ 0) = c.contrastFollowSun) := by
  obtain ⟨s1, s2, s3, ss, im, tz, tm, vc, cf, dc, nc, dd, sr, st⟩ := c
  cases tm <;> cases ss <;> cases im <;> cases vc <;> cases cf <;>
    simp [flagsByte] <;> decide

theorem stringWrites_lo (b : Nat) (s : List Nat) (m lo : Nat) (h : lo < b) :
    ∀ p ∈ stringWrites b s m, lo < p.1 := fun p hp =>
  lt_of_lt_of_le h (stringWrites_mem_fst b s m p hp).1

theorem varSigWrites_lo (c : Config) (lo : Nat) (h : lo < 300) :
    ∀ p ∈ varSigWrites c, lo < p.1 := fun p hp => by
  rcases varSigWrites_mem_fst c p hp with h1 | h1 <;> omega

theorem mem_append_bound {l1 l2 : List (Nat × Nat)} {lo : Nat}
    (h1 : ∀ p ∈ l1, lo < p.1) (h2 : ∀ p ∈ l2, lo < p.1) :
    ∀ p ∈ l1 ++ l2, lo < p.1 := fun p hp => by
  rcases List.mem_append.mp hp with h | h
  · exact h1 p h
  · exact h2 p h

/-- After `saveSettings`, each string slot reads back the saved string
(strings within slot capacity and made of nonzero bytes). -/
theorem save_read_strings (e : EEPROM) (c : Config)
    (h1 : c.wifiSSID.length ≤ 60) (hb1 : ∀ x ∈ c.wifiSSID, 0 < x ∧ x < 256)
    (h2 : c.wifiPass.length ≤ 60) (hb2 : ∀ x ∈ c.wifiPass, 0 < x ∧ x < 256)
    (h3 : c.city.length ≤ 60) (hb3 : ∀ x ∈ c.city, 0 < x ∧ x < 256)
    (h4 : c.timezone.length ≤ 80) (hb4 : ∀ x ∈ c.timezone, 0 < x ∧ x < 256) :
    eepromReadString (saveSettings e c) ADDR_SSID 60 = c.wifiSSID ∧
    eepromReadString (saveSettings e c) ADDR_PASS 60 = c.wifiPass ∧
    eepromReadString (saveSettings e c) ADDR_CITY 60 = c.city ∧
    eepromReadString (saveSettings e c) ADDR_TZ 80 = c.timezone := by
  have hV : ∀ lo, lo < 300 → ∀ p ∈ varSigWrites c, lo < p.1 := varSigWrites_lo c
  refine ⟨?_, ?_, ?_, ?_⟩
  · rw [show saveSettings e c = applyWrites (applyWrites e
        (stringWrites ADDR_SSID c.wifiSSID 60))
        (stringWrites ADDR_PASS c.wifiPass 60 ++ (stringWrites ADDR_CITY c.city 60 ++
          (stringWrites ADDR_TZ c.timezone 80 ++ varSigWrites c))) from by
      simp only [saveSettings, saveWrites, applyWrites_append]]
    refine read_slot_after e ADDR_SSID c.wifiSSID 60 _ (by norm_num) h1 hb1 ?_
    have h60 : (60 : Nat) = ADDR_SSID + 60 := by norm_num [ADDR_SSID]
    rw [← h60]
    exact mem_append_bound (stringWrites_lo _ _ _ _ (by norm_num [ADDR_PASS]))
      (mem_append_bound (stringWrites_lo _ _ _ _ (by norm_num [ADDR_CITY]))
        (mem_append_bound (stringWrites_lo _ _ _ _ (by norm_num [ADDR_TZ]))
          (hV 60 (by norm_num))))
  · rw [show saveSettings e c = applyWrites (applyWrites
        (applyWrites e (stringWrites ADDR_SSID c.wifiSSID 60))
        (stringWrites ADDR_PASS c.wifiPass 60))
        (stringWrites ADDR_CITY c.city 60 ++
          (stringWrites ADDR_TZ c.timezone 80 ++ varSigWrites c)) from by
      simp only [saveSettings, saveWrites, applyWrites_append]]
    refine read_slot_after _ ADDR_PASS c.wifiPass 60 _ (by norm_num) h2 hb2 ?_
    have h130 : ADDR_PASS + 60 = 130 := by norm_num [ADDR_PASS]
    rw [h130]
    exact mem_append_bound (stringWrites_lo _ _ _ _ (by norm_num [ADDR_CITY]))
      (mem_append_bound (stringWrites_lo _ _ _ _ (by norm_num [ADDR_TZ]))
        (hV 130 (by norm_num)))
  · rw [show saveSettings e c = applyWrites (applyWrites (applyWrites
        (applyWrites e (stringWrites ADDR_SSID c.wifiSSID 60))
        (stringWrites ADDR_PASS c.wifiPass 60))
        (stringWrites ADDR_CITY c.city 60))
        (stringWrites ADDR_TZ c.timezone 80 ++ varSigWrites c) from by
      simp only [saveSettings, saveWrites, applyWrites_append]]
    refine read_slot_after _ ADDR_CITY c.city 60 _ (by norm_num) h3 hb3 ?_
    have h200 : ADDR_CITY + 60 = 200 := by norm_num [ADDR_CITY]
    rw [h200]
    exact mem_append_bound (stringWrites_lo _ _ _ _ (by norm_num [ADDR_TZ]))
      (hV 200 (by norm_num))
  · rw [show saveSettings e c = applyWrites (applyWrites (applyWrites (applyWrites
        (applyWrites e (stringWrites ADDR_SSID c.wifiSSID 60))
        (stringWrites ADDR_PASS c.wifiPass 60))
        (stringWrites ADDR_CITY c.city 60))
        (stringWrites ADDR_TZ c.timezone 80))
        (varSigWrites c) from by
      simp only [saveSettings, saveWrites, applyWrites_append]]
    refine read_slot_after _ ADDR_TZ c.timezone 80 _ (by norm_num) h4 hb4 ?_
    have h290 : ADDR_TZ + 80 = 290 := by norm_num [ADDR_TZ]
    rw [h290]
    exact hV 290 (by norm_num)

/-- After `saveSettings`, the packed flag byte, numeric fields and signature
bytes hold the encoded values. -/
theorem save_read_vars (e : EEPROM) (c : Config) :
    saveSettings e c 300 = flagsByte c % 256 ∧
    saveSettings e c 301 = c.dayContrast % 256 ∧
    saveSettings e c 302 = c.nightContrast % 256 ∧
    saveSettings e c 303 = c.dawnDuskDuration % 256 ∧
    saveSettings e c 304 = c.dawnDuskDuration / 2 ^ 8 % 256 ∧
    saveSettings e c 305 = c.sunRise % 256 ∧
    saveSettings e c 306 = c.sunRise / 2 ^ 8 % 256 ∧
    saveSettings e c 307 = c.sunRise / 2 ^ 16 % 256 ∧
    saveSettings e c 308 = c.sunRise / 2 ^ 24 % 256 ∧
    saveSettings e c 309 = c.sunSet % 256 ∧
    saveSettings e c 310 = c.sunSet / 2 ^ 8 % 256 ∧
    saveSettings e c 311 = c.sunSet / 2 ^ 16 % 256 ∧
    saveSettings e c 312 = c.sunSet / 2 ^ 24 % 256 ∧
    saveSettings e c 500 = 67 ∧ saveSettings e c 501 = 70 ∧
    saveSettings e c 502 = 71 ∧ saveSettings e c 503 = 50 := by
  have hsplit : saveSettings e c = applyWrites (applyWrites (applyWrites (applyWrites
      (applyWrites e (stringWrites ADDR_SSID c.wifiSSID 60))
      (stringWrites ADDR_PASS c.wifiPass 60))
      (stringWrites ADDR_CITY c.city 60))
      (stringWrites ADDR_TZ c.timezone 80)) (varSigWrites c) := by
    simp only [saveSettings, saveWrites, applyWrites_append]
  rw [hsplit]
  exact varSigWrites_eval _ c

/-- `saveSettings` leaves a valid signature. -/
theorem save_sigValid (e : EEPROM) (c : Config) : sigValid (saveSettings e c) = true := by
  obtain ⟨-, -, -, -, -, -, -, -, -, -, -, -, -, h500, h501, h502, h503⟩ := save_read_vars e c
  simp [sigValid, ADDR_SIGNATURE, DEVICE_SIGNATURE, h500, h501, h502, h503]

/-- **C1.** For every configuration record `R` within the documented bounds
(strings no longer than their 60/80-byte slot capacity, made of nonzero
bytes as any C string payload is; `dayContrast`, `nightContrast` in
`[0,255]`; `dawnDuskDurationMinutes` in `[0,240]`; `sunriseSecondOfDay`,
`sunsetSecondOfDay` in `[0,86399]`; non-empty timezone string),
`loadSettings` after `saveSettings R` returns exactly `R`, field for field,
whatever the previous storage and global state were, and the saved storage
carries a valid signature. -/
theorem C1_load_after_save_roundtrip (e : EEPROM) (R prior : Config)
    (hS : R.wifiSSID.length ≤ 60) (hSb : ∀ x ∈ R.wifiSSID, 0 < x ∧ x < 256)
    (hP : R.wifiPass.length ≤ 60) (hPb : ∀ x ∈ R.wifiPass, 0 < x ∧ x < 256)
    (hC : R.city.length ≤ 60) (hCb : ∀ x ∈ R.city, 0 < x ∧ x < 256)
    (hT : R.timezone.length ≤ 80) (hTb : ∀ x ∈ R.timezone, 0 < x ∧ x < 256)
    (hTne : R.timezone ≠ [])
    (hday : R.dayContrast ≤ 255) (hnight : R.nightContrast ≤ 255)
    (hdur : R.dawnDuskDuration ≤ 240)
    (hrise : R.sunRise ≤ 86399) (hset : R.sunSet ≤ 86399) :
    loadSettings (saveSettings e R) prior = R ∧
      sigValid (saveSettings e R) = true := by
  have hsig := save_sigValid e R
  obtain ⟨hstr1, hstr2, hstr3, hstr4⟩ :=
    save_read_strings e R hS hSb hP hPb hC hCb hT hTb
  obtain ⟨h300, h301, h302, h303, h304, h305, h306, h307, h308, h309, h310,
    h311, h312, -, -, -, -⟩ := save_read_vars e R
  obtain ⟨hbit0, hbit1, hbit2, hbit3, hbit4⟩ := flagsByte_bits R
  have hfl : flagsByte R < 256 := flagsByte_lt R
  refine ⟨?_, hsig⟩
  have hflags : saveSettings e R 300 % 256 = flagsByte R := by
    rw [h300]
    omega
  have hu16 : eepromReadU16 (saveSettings e R) 303 = R.dawnDuskDuration := by
    rw [eepromReadU16, h303, h304]
    omega
  have hu32r : eepromReadU32 (saveSettings e R) 305 = R.sunRise := by
    rw [eepromReadU32, h305, h306, h307, h308]
    omega
  have hu32s : eepromReadU32 (saveSettings e R) 309 = R.sunSet := by
    rw [eepromReadU32, h309, h310, h311, h312]
    omega
  have hTlen : R.timezone.length ≠ 0 := fun h => hTne (List.length_eq_zero.mp h)
  have hdc : saveSettings e R 301 % 256 = R.dayContrast := by rw [h301]; omega
  have hnc : saveSettings e R 302 % 256 = R.nightContrast := by rw [h302]; omega
  have hc1 : (R.timezone.length = 0) = False := eq_false hTlen
  have hc2 : (240 < R.dawnDuskDuration) = False := eq_false (by omega)
  have hc3 : (86399 < R.sunRise) = False := eq_false (by omega)
  have hc4 : (86399 < R.sunSet) = False := eq_false (by omega)
  simp only [loadSettings, hsig, Bool.true_eq_false, if_false, ADDR_SSID,
    ADDR_PASS, ADDR_CITY, ADDR_TZ, ADDR_VARIABLES]
  simp only [show (300 : Nat) + 3 = 303 from rfl, show (300 : Nat) + 5 = 305 from rfl,
    show (300 : Nat) + 9 = 309 from rfl, show (300 : Nat) + 1 = 301 from rfl,
    show (300 : Nat) + 2 = 302 from rfl]
  simp only [show eepromReadString (saveSettings e R) 0 60 = R.wifiSSID from hstr1,
    show eepromReadString (saveSettings e R) 70 60 = R.wifiPass from hstr2,
    show eepromReadString (saveSettings e R) 140 60 = R.city from hstr3,
    show eepromReadString (saveSettings e R) 210 80 = R.timezone from hstr4,
    hflags, hu16, hu32r, hu32s, hdc, hnc]
  simp only [hc1, hc2, hc3, hc4, if_false]
  obtain ⟨s1, s2, s3, ss, im, tz, tm, vc, cf, dc, nc, dd, sr, sst⟩ := R
  simp only [Config.mk.injEq]
  exact ⟨trivial, trivial, trivial, hbit1, hbit2, trivial, hbit0, hbit3, hbit4,
    trivial, trivial, trivial, trivial, trivial⟩

/-- Witness for C1: the round trip evaluated on a concrete in-bounds record
over an erased store. -/
theorem C1_witness :
    loadSettings (saveSettings zeroEEPROM sampleConfig) initialConfig = sampleConfig ∧
      sigValid (saveSettings zeroEEPROM sampleConfig) = true :=
  C1_load_after_save_roundtrip zeroEEPROM sampleConfig initialConfig
    (by decide) (by decide) (by decide) (by decide) (by decide) (by decide)
    (by decide) (by decide) (by decide) (by decide) (by decide) (by decide)
    (by decide) (by decide)

/-- **C3 (counterexample).** The claim says a signature mismatch makes `load`
return a record populated entirely with hard-coded defaults, with every
contrast feature disabled. The default block of `loadSettings` (lines
963-979) never assigns `config_contrastFollowSun`, so with a prior state in
which that flag is set, the returned record still has
`contrastFollowSun = true` — a contrast feature left enabled, not a default. -/
theorem C3_counterexample :
    sigValid zeroEEPROM = false ∧
      (loadSettings zeroEEPROM
        { initialConfig with contrastFollowSun := true }).contrastFollowSun = true := by
  constructor
  · decide
  · simp [loadSettings, sigValid, zeroEEPROM, ADDR_SIGNATURE, DEVICE_SIGNATURE]

/-- **C3 (amended).** Whenever the four signature bytes do not all match,
`loadSettings` returns the hard-coded defaults in every field except
`contrastFollowSun`, which keeps its prior value (`false` at every actual
call, since the function runs only at boot on pristine globals), and
`setup`'s boolean portal decision reports the missing configuration. -/
theorem C3_amended_defaults (e : EEPROM) (prior : Config) (h : sigValid e = false) :
    loadSettings e prior =
      { wifiSSID := [], wifiPass := [], city := [], showSeconds := false,
        imperial := false, timezone := bytesOf "UTC0", timezone_manual := false,
        variableContrast := false, contrastFollowSun := prior.contrastFollowSun,
        dayContrast := 255, nightContrast := 10, dawnDuskDuration := 30,
        sunRise := 25200, sunSet := 75600 } ∧
      configModeFlag e false = true := by
  constructor
  · simp [loadSettings, h]
  · have key : ∀ a b c d : Bool, (a && b && c && d) = false →
        (!a || !b || !c || !d || false) = true := by decide
    exact key _ _ _ _ h

/-- Witness for C3 (amended): evaluated on the erased store. -/
theorem C3_amended_witness :
    loadSettings zeroEEPROM initialConfig =
      { wifiSSID := [], wifiPass := [], city := [], showSeconds := false,
        imperial := false, timezone := bytesOf "UTC0", timezone_manual := false,
        variableContrast := false, contrastFollowSun := initialConfig.contrastFollowSun,
        dayContrast := 255, nightContrast := 10, dawnDuskDuration := 30,
        sunRise := 25200, sunSet := 75600 } ∧
      configModeFlag zeroEEPROM false = true :=
  C3_amended_defaults zeroEEPROM initialConfig (by decide)

/-- **C7.** With a matching signature, `loadSettings` applies the post-decode
sanitation (out-of-range sunrise/sunset reset to 07:00/21:00, out-of-range
dawn/dusk duration reset to 30, empty timezone replaced by `"UTC0"` with the
manual flag cleared); on every storage whatsoever the loaded record never has
`timezone_manual = true` together with an empty timezone; and every string
read stays within its slot capacity (hence within the 128-byte buffer). -/
theorem C7_load_sanitation (e : EEPROM) (prior : Config) :
    (sigValid e = true →
      ((loadSettings e prior).sunRise =
        if 86399 < eepromReadU32 e (ADDR_VARIABLES + 5) then 25200
        else eepromReadU32 e (ADDR_VARIABLES + 5)) ∧
      ((loadSettings e prior).sunSet =
        if 86399 < eepromReadU32 e (ADDR_VARIABLES + 9) then 75600
        else eepromReadU32 e (ADDR_VARIABLES + 9)) ∧
      ((loadSettings e prior).dawnDuskDuration =
        if 240 < eepromReadU16 e (ADDR_VARIABLES + 3) then 30
        else eepromReadU16 e (ADDR_VARIABLES + 3)) ∧
      (eepromReadString e ADDR_TZ 80 = [] →
        (loadSettings e prior).timezone = bytesOf "UTC0" ∧
        (loadSettings e prior).timezone_manual = false)) ∧
    (¬((loadSettings e prior).timezone_manual = true ∧
        (loadSettings e prior).timezone = [])) ∧
    (∀ b m, (eepromReadString e b m).length ≤ m) := by
  refine ⟨?_, ?_, ?_⟩
  · intro hsig
    simp only [loadSettings, hsig, Bool.true_eq_false, if_false]
    refine ⟨trivial, trivial, trivial, ?_⟩
    intro htz
    constructor <;> simp [htz]
  · cases hsig : sigValid e with
    | false =>
      simp [loadSettings, hsig]
    | true =>
      simp only [loadSettings, hsig, Bool.true_eq_false, if_false]
      rintro ⟨hm, ht⟩
      by_cases h0 : (eepromReadString e ADDR_TZ 80).length = 0
      · rw [if_pos h0] at ht
        exact absurd ht (by decide)
      · rw [if_neg h0] at ht
        exact h0 (by rw [ht]; rfl)
  · intro b m
    simp only [eepromReadString]
    split
    · simp
    · refine le_trans (List.Sublist.length_le (List.takeWhile_sublist _)) ?_
      simp

/-- Witness for C7: on a store holding only a valid signature (all data
bytes erased to zero), the loaded timezone is sanitized to `"UTC0"` with the
manual flag cleared, and the invariant holds. -/
theorem C7_witness :
    (loadSettings sigOnlyEEPROM initialConfig).timezone = bytesOf "UTC0" ∧
    (loadSettings sigOnlyEEPROM initialConfig).timezone_manual = false ∧
    ¬((loadSettings sigOnlyEEPROM initialConfig).timezone_manual = true ∧
      (loadSettings sigOnlyEEPROM initialConfig).timezone = []) := by
  have h := C7_load_sanitation sigOnlyEEPROM initialConfig
  have h1 := (h.1 (by decide)).2.2.2 (by decide)
  exact ⟨h1.1, h1.2, h.2.1⟩

/-- **C9.** The write trace of `saveSettings` is some prefix of data writes
followed by exactly the four signature writes; every data write lands at an
address strictly below the signature block, so at no intermediate point of
the sequence does storage hold the new signature alongside data fields not
yet written. -/
theorem C9_signature_written_last (c : Config) :
    ∃ pre, saveWrites c = pre ++ [(ADDR_SIGNATURE, 67), (ADDR_SIGNATURE + 1, 70),
        (ADDR_SIGNATURE + 2, 71), (ADDR_SIGNATURE + 3, DEVICE_SIGNATURE)] ∧
      ∀ p ∈ pre, p.1 < ADDR_SIGNATURE := by
  refine ⟨stringWrites ADDR_SSID c.wifiSSID 60 ++ stringWrites ADDR_PASS c.wifiPass 60 ++
    stringWrites ADDR_CITY c.city 60 ++ stringWrites ADDR_TZ c.timezone 80 ++
    [(ADDR_VARIABLES, flagsByte c),
     (ADDR_VARIABLES + 1, c.dayContrast),
     (ADDR_VARIABLES + 2, c.nightContrast),
     (ADDR_VARIABLES + 3, c.dawnDuskDuration % 256),
     (ADDR_VARIABLES + 4, c.dawnDuskDuration / 2 ^ 8 % 256),
     (ADDR_VARIABLES + 5, c.sunRise % 256),
     (ADDR_VARIABLES + 6, c.sunRise / 2 ^ 8 % 256),
     (ADDR_VARIABLES + 7, c.sunRise / 2 ^ 16 % 256),
     (ADDR_VARIABLES + 8, c.sunRise / 2 ^ 24 % 256),
     (ADDR_VARIABLES + 9, c.sunSet % 256),
     (ADDR_VARIABLES + 10, c.sunSet / 2 ^ 8 % 256),
     (ADDR_VARIABLES + 11, c.sunSet / 2 ^ 16 % 256),
     (ADDR_VARIABLES + 12, c.sunSet / 2 ^ 24 % 256)], ?_, ?_⟩
  · simp [saveWrites, varSigWrites]
  · intro p hp
    simp only [List.append_assoc, List.mem_append, List.mem_cons,
      List.not_mem_nil, or_false] at hp
    have hsig500 : ADDR_SIGNATURE = 500 := rfl
    rcases hp with h | h | h | h | h
    · have hb := stringWrites_mem_fst _ _ _ _ h
      have : p.1 ≤ 60 := by simpa [ADDR_SSID] using hb.2
      omega
    · have hb := stringWrites_mem_fst _ _ _ _ h
      have : p.1 ≤ 130 := by simpa [ADDR_PASS] using hb.2
      omega
    · have hb := stringWrites_mem_fst _ _ _ _ h
      have : p.1 ≤ 200 := by simpa [ADDR_CITY] using hb.2
      omega
    · have hb := stringWrites_mem_fst _ _ _ _ h
      have : p.1 ≤ 290 := by simpa [ADDR_TZ] using hb.2
      omega
    · rcases h with rfl | rfl | rfl | rfl | rfl | rfl | rfl | rfl | rfl | rfl | rfl |
        rfl | rfl <;> simp [ADDR_VARIABLES, ADDR_SIGNATURE]

/-- Witness for C9: the write order evaluated on a concrete record. -/
theorem C9_witness :
    ∃ pre, saveWrites sampleConfig = pre ++ [(ADDR_SIGNATURE, 67), (ADDR_SIGNATURE + 1, 70),
        (ADDR_SIGNATURE + 2, 71), (ADDR_SIGNATURE + 3, DEVICE_SIGNATURE)] ∧
      ∀ p ∈ pre, p.1 < ADDR_SIGNATURE :=
  C9_signature_written_last sampleConfig

/-! ## Fetcher failure-path lemmas -/

theorem parseWeatherLine_nil (b : Bool) : parseWeatherLine [] b = none := by
  simp [parseWeatherLine, idxOfFrom, idxOfAux]

/-- Every failure path of `getWeather` (no Wi-Fi, connection failure, no
candidate line, parse/validation failure) leaves the snapshot untouched and
returns `getWeatherExpired`. -/
theorem getWeather_fail_eq (env : FetchEnv) (vc cf : Bool) (ctr : Nat)
    (st : WeatherState)
    (hfail : env.wifiConnected = false ∨ env.connectOk = false ∨
      scanLines env.response [] = [] ∨
      parseWeatherLine (scanLines env.response []) (ctr % 4 == 0 && vc && cf) = none) :
    (getWeather env vc cf ctr st).1 = st ∧
      (getWeather env vc cf ctr st).2.2 = getWeatherExpired st env.now := by
  unfold getWeather
  cases hwifi : env.wifiConnected with
  | false => simp
  | true =>
    simp only [hwifi, Bool.true_eq_false, if_false]
    cases hconn : env.connectOk with
    | false => simp
    | true =>
      simp only [hconn, Bool.true_eq_false, if_false]
      rcases hfail with h | h | h | h
      · rw [hwifi] at h
        exact absurd h (by decide)
      · rw [hconn] at h
        exact absurd h (by decide)
      · simp [h]
      · by_cases hres : (scanLines env.response []).length = 0
        · simp [hres]
        · have hres' : ((scanLines env.response []).length = 0) = False := eq_false hres
          simp only [hres', if_false, h]
          constructor <;> trivial

/-- **C2.** On every failing refresh, the returned validity outcome (the
value the host loop stores into `weather_valid`) is `true` iff there was a
previous success (`lastSuccessfulUpdate ≠ 0`) whose age is strictly below 90
minutes (5 400 000 ms); otherwise the snapshot is reported invalid. -/
theorem C2_staleness_policy (env : FetchEnv) (vc cf : Bool) (ctr : Nat)
    (st : WeatherState)
    (hfail : env.wifiConnected = false ∨ env.connectOk = false ∨
      scanLines env.response [] = [] ∨
      parseWeatherLine (scanLines env.response []) (ctr % 4 == 0 && vc && cf) = none)
    (hmono : st.lastSuccessfulUpdate ≤ env.now) :
    ((getWeather env vc cf ctr st).2.2 = true ↔
      (st.lastSuccessfulUpdate ≠ 0 ∧
        env.now - st.lastSuccessfulUpdate < 5400000)) := by
  rw [(getWeather_fail_eq env vc cf ctr st hfail).2]
  unfold getWeatherExpired
  by_cases h0 : st.lastSuccessfulUpdate = 0
  · simp [h0]
  · rw [if_neg h0]
    split <;> simp [h0] <;> omega

/-- Witness for C2: Wi-Fi down, last success 10 minutes old at tick
1 200 000 — the outcome stays valid. -/
theorem C2_witness :
    ((getWeather downEnv false false 0 sampleSnapshot).2.2 = true ↔
      (sampleSnapshot.lastSuccessfulUpdate ≠ 0 ∧
        downEnv.now - sampleSnapshot.lastSuccessfulUpdate < 5400000)) :=
  C2_staleness_policy downEnv false false 0 sampleSnapshot (Or.inl (by decide))
    (by decide)

/-- **C10.** On every failure path of a refresh, no snapshot field is
modified: the five base fields, the four sun-event strings and
`lastSuccessfulUpdate` all keep exactly their prior values, even when the
retention window has expired and the outcome is invalid. -/
theorem C10_failure_frame (env : FetchEnv) (vc cf : Bool) (ctr : Nat)
    (st : WeatherState)
    (hfail : env.wifiConnected = false ∨ env.connectOk = false ∨
      scanLines env.response [] = [] ∨
      parseWeatherLine (scanLines env.response []) (ctr % 4 == 0 && vc && cf) = none) :
    (getWeather env vc cf ctr st).1.temp = st.temp ∧
    (getWeather env vc cf ctr st).1.cond = st.cond ∧
    (getWeather env vc cf ctr st).1.hum = st.hum ∧
    (getWeather env vc cf ctr st).1.wind = st.wind ∧
    (getWeather env vc cf ctr st).1.press = st.press ∧
    (getWeather env vc cf ctr st).1.sundawn = st.sundawn ∧
    (getWeather env vc cf ctr st).1.sunrise = st.sunrise ∧
    (getWeather env vc cf ctr st).1.sunset = st.sunset ∧
    (getWeather env vc cf ctr st).1.sundusk = st.sundusk ∧
    (getWeather env vc cf ctr st).1.lastSuccessfulUpdate = st.lastSuccessfulUpdate ∧
    (getWeather env vc cf ctr st).2.2 = getWeatherExpired st env.now := by
  obtain ⟨h1, h2⟩ := getWeather_fail_eq env vc cf ctr st hfail
  rw [h1, h2]
  exact ⟨rfl, rfl, rfl, rfl, rfl, rfl, rfl, rfl, rfl, rfl, rfl⟩

/-- Witness for C10: a Wi-Fi-down refresh, evaluated on a concrete expired
snapshot (last success 10 minutes old but the environment is 2 hours later
would expire it; here the age is 10 minutes — fields unchanged either way). -/
theorem C10_witness :
    (getWeather downEnv false false 0 sampleSnapshot).1.temp = sampleSnapshot.temp ∧
    (getWeather downEnv false false 0 sampleSnapshot).1.wind = sampleSnapshot.wind ∧
    (getWeather downEnv false false 0 sampleSnapshot).1.lastSuccessfulUpdate =
      sampleSnapshot.lastSuccessfulUpdate := by
  have h := C10_failure_frame downEnv false false 0 sampleSnapshot (Or.inl (by decide))
  exact ⟨h.1, h.2.2.2.1, h.2.2.2.2.2.2.2.2.2.1⟩

/-- **C8.** On every successful refresh (Wi-Fi up, connection up, a candidate
line that parses and validates), the five base snapshot fields are
overwritten with the parsed values, the outcome is `true`
(`weather_valid` becomes true in the host loop), `lastSuccessfulUpdate` is
stamped with the current tick, and the four sun-event strings are
overwritten exactly when the extended fields were requested in that refresh
— a successful non-extended refresh leaves them unchanged. -/
theorem C8_success_overwrite (env : FetchEnv) (vc cf : Bool) (ctr : Nat)
    (st : WeatherState) (f : Parsed)
    (hwifi : env.wifiConnected = true) (hconn : env.connectOk = true)
    (hparse : parseWeatherLine (scanLines env.response [])
      (ctr % 4 == 0 && vc && cf) = some f) :
    (getWeather env vc cf ctr st).1.temp = f.temp ∧
    (getWeather env vc cf ctr st).1.cond = f.cond ∧
    (getWeather env vc cf ctr st).1.hum = f.hum ∧
    (getWeather env vc cf ctr st).1.wind = f.wind ∧
    (getWeather env vc cf ctr st).1.press = f.press ∧
    (getWeather env vc cf ctr st).1.lastSuccessfulUpdate = env.now ∧
    (getWeather env vc cf ctr st).2.2 = true ∧
    ((ctr % 4 == 0 && vc && cf) = false →
      (getWeather env vc cf ctr st).1.sundawn = st.sundawn ∧
      (getWeather env vc cf ctr st).1.sunrise = st.sunrise ∧
      (getWeather env vc cf ctr st).1.sunset = st.sunset ∧
      (getWeather env vc cf ctr st).1.sundusk = st.sundusk) ∧
    ((ctr % 4 == 0 && vc && cf) = true →
      (getWeather env vc cf ctr st).1.sundawn = f.sunDawn ∧
      (getWeather env vc cf ctr st).1.sunrise = f.sunRise ∧
      (getWeather env vc cf ctr st).1.sunset = f.sunSet ∧
      (getWeather env vc cf ctr st).1.sundusk = f.sunDusk) := by
  have hres : scanLines env.response [] ≠ [] := by
    intro hh
    rw [hh, parseWeatherLine_nil] at hparse
    exact Option.noConfusion hparse
  have hlen : ((scanLines env.response []).length = 0) = False :=
    eq_false (fun hh => hres (List.length_eq_zero.mp hh))
  simp only [getWeather, hwifi, hconn, Bool.true_eq_false, if_false, hlen, hparse]
  refine ⟨trivial, trivial, trivial, trivial, trivial, trivial, trivial, ?_, ?_⟩ <;>
    intro hsd <;> simp [hsd]

/-- Witness for C8: a successful non-extended refresh against a concrete
5-field response leaves the previously known sun-event strings unchanged
while the base fields and the timestamp are overwritten. -/
theorem C8_witness :
    (getWeather okEnvBase false false 0 sampleSnapshot).1.temp = charsOf "+21" ∧
    (getWeather okEnvBase false false 0 sampleSnapshot).1.lastSuccessfulUpdate =
      okEnvBase.now ∧
    (getWeather okEnvBase false false 0 sampleSnapshot).2.2 = true ∧
    (getWeather okEnvBase false false 0 sampleSnapshot).1.sundawn =
      sampleSnapshot.sundawn := by
  have h := C8_success_overwrite okEnvBase false false 0 sampleSnapshot
    { temp := charsOf "+21", cond := charsOf "Sunny", hum := charsOf "45%",
      wind := charsOf "11km/h", press := charsOf "1015hPa",
      sunDawn := [], sunRise := [], sunSet := [], sunDusk := [] }
    (by decide) (by decide) (by decide)
  exact ⟨h.1, h.2.2.2.2.2.1, h.2.2.2.2.2.2.1, (h.2.2.2.2.2.2.2.1 (by decide)).1⟩

/-- **C5.** Evaluation at the failing input: eight consecutive
extended-capable refreshes (variable contrast and contrast-follows-sun
enabled, each against a successful 9-field response) starting from boot
(`getWeatherCounter = 0`). The counter is incremented only inside the
extended branch (lines 1641-1647), so after the first refresh it sticks at
1 and `counter % 4 == 0` never holds again: only the very first
extended-capable refresh requests the extended query, not one in every
four. Under the claimed cadence, two of the first eight capable refreshes
would be extended and the counter — which advances exactly when the
extended query is sent — would reach 2. -/
theorem C5_extended_cadence_bug :
    (iterateRefresh okEnvExt true true 1).2 = 1 ∧
    (iterateRefresh okEnvExt true true 8).2 = 1 ∧
    (1 % 4 == 0 && true && true) = false := by
  refine ⟨by decide, by decide, by decide⟩

/-- **C4 (counterexample).** The claim says every extracted field is
whitespace-trimmed and an empty-after-trim wind is replaced by `"N/A"`. The
code trims only temperature, condition and humidity (lines 1774-1777) and
substitutes `"N/A"` only for a length-zero wind/pressure (lines 1779-1787):
on the accepted line `"+21|Sunny|45%| |1015hPa"` the wind field stays a
single space — neither trimmed nor substituted. -/
theorem C4_counterexample :
    (getWeather { wifiConnected := true
                  connectOk := true
                  response := charsOf "+21|Sunny|45%| |1015hPa"
                  now := 1000 } false false 0
        initialWeather).1.wind = [' '] ∧
      trimC [' '] = [] ∧ [' '] ≠ naChars := by
  refine ⟨by decide, by decide, by decide⟩

theorem idxOfAux_append (ch : Char) : ∀ (t r : List Char) (i : Nat), ch ∉ t →
    idxOfAux (t ++ ch :: r) ch i = (i : Int) + t.length := by
  intro t
  induction t with
  | nil => intro r i _; simp [idxOfAux]
  | cons a tl ih =>
    intro r i hmem
    have ha : ¬(a = ch) := fun hx => hmem (hx ▸ List.mem_cons_self _ _)
    show idxOfAux (a :: (tl ++ ch :: r)) ch i = _
    simp only [idxOfAux, if_neg ha]
    rw [ih r (i + 1) (fun hx => hmem (List.mem_cons_of_mem _ hx))]
    simp only [List.length_cons]
    push_cast
    ring

theorem drop_append_cons {α : Type} (t : List α) (x : α) (r : List α) :
    (t ++ x :: r).drop (t.length + 1) = r := by
  rw [show t ++ x :: r = (t ++ [x]) ++ r by simp,
    show t.length + 1 = (t ++ [x]).length by simp, List.drop_left]

theorem slice_mid (pre mid post : List Char) :
    ((pre ++ (mid ++ post)).take (pre.length + mid.length)).drop pre.length = mid := by
  rw [← List.append_assoc, show pre.length + mid.length = (pre ++ mid).length by simp,
    List.take_left, List.drop_left]

theorem substrA_eq (s : List Char) (l r : Nat) (hl : l ≤ r) (hr : r ≤ s.length)
    (hs : s.length < 2 ^ 32) :
    substrA s (l : Int) (r : Int) = (s.take r).drop l := by
  have hl32 : (((l : Nat) : Int) % 2 ^ 32).toNat = l := by
    rw [Int.emod_eq_of_lt (by positivity) (by exact_mod_cast lt_of_le_of_lt (le_trans hl hr) hs)]
    exact Int.toNat_natCast l
  have hr32 : (((r : Nat) : Int) % 2 ^ 32).toNat = r := by
    rw [Int.emod_eq_of_lt (by positivity) (by exact_mod_cast lt_of_le_of_lt hr hs)]
    exact Int.toNat_natCast r
  simp only [substrA, hl32, hr32, if_neg (by omega : ¬ l > r)]
  by_cases hls : l ≥ s.length
  · rw [if_pos hls]
    have : r = s.length := le_antisymm hr (le_trans hls hl)
    rw [this, List.take_length]
    exact (List.drop_eq_nil_of_le hls).symm
  · rw [if_neg hls, min_eq_left hr]

/-- **C4 (amended).** For every accepted base candidate line
`t|c|h|w|p` (no `'|'` inside the first four fields): temperature, condition
and humidity are whitespace-trimmed; wind and pressure are taken verbatim —
not trimmed — and replaced by the literal `"N/A"` exactly when the raw field
is empty (length 0); an empty temperature or condition after trimming takes
the failure path. -/
theorem C4_amended_field_handling (t c h w p : List Char)
    (ht : '|' ∉ t) (hc : '|' ∉ c) (hh : '|' ∉ h) (hw : '|' ∉ w)
    (hlen : (t ++ '|' :: (c ++ '|' :: (h ++ '|' :: (w ++ '|' :: p)))).length < 2 ^ 32) :
    parseWeatherLine (t ++ '|' :: (c ++ '|' :: (h ++ '|' :: (w ++ '|' :: p)))) false =
      if trimC t = [] ∨ trimC c = [] then none
      else some { temp := trimC t, cond := trimC c, hum := trimC h,
                  wind := if w = [] then naChars else w,
                  press := if p = [] then naChars else p,
                  sunDawn := [], sunRise := [], sunSet := [], sunDusk := [] } := by
  set L := t ++ '|' :: (c ++ '|' :: (h ++ '|' :: (w ++ '|' :: p))) with hLdef
  have hLlen : L.length = t.length + c.length + h.length + w.length + p.length + 4 := by
    rw [hLdef]
    simp
    omega
  have hL32 : L.length < 2 ^ 32 := hlen
  have hdrop1 : L.drop (t.length + 1) = c ++ '|' :: (h ++ '|' :: (w ++ '|' :: p)) := by
    rw [hLdef]
    exact drop_append_cons t '|' _
  have hdrop2 : L.drop (t.length + 1 + c.length + 1) = h ++ '|' :: (w ++ '|' :: p) := by
    have e : t.length + 1 + c.length + 1 = (t.length + 1) + (c.length + 1) := by ring
    rw [e, ← List.drop_drop, hdrop1]
    exact drop_append_cons c '|' _
  have hdrop3 : L.drop (t.length + 1 + c.length + 1 + h.length + 1) =
      w ++ '|' :: p := by
    have e : t.length + 1 + c.length + 1 + h.length + 1 =
        (t.length + 1 + c.length + 1) + (h.length + 1) := by ring
    rw [e, ← List.drop_drop, hdrop2]
    exact drop_append_cons h '|' _
  have hdrop4 : L.drop (t.length + 1 + c.length + 1 + h.length + 1 + w.length + 1) = p := by
    have e : t.length + 1 + c.length + 1 + h.length + 1 + w.length + 1 =
        (t.length + 1 + c.length + 1 + h.length + 1) + (w.length + 1) := by ring
    rw [e, ← List.drop_drop, hdrop3]
    exact drop_append_cons w '|' _
  have hidx1 : idxOfFrom L '|' 0 = ((t.length : Nat) : Int) := by
    unfold idxOfFrom
    rw [List.drop_zero, hLdef]
    simpa using idxOfAux_append '|' t _ 0 ht
  have hidx2 : idxOfFrom L '|' (t.length + 1) =
      ((t.length + 1 + c.length : Nat) : Int) := by
    unfold idxOfFrom
    rw [hdrop1, idxOfAux_append '|' c _ _ hc]
    push_cast
    ring
  have hidx3 : idxOfFrom L '|' (t.length + 1 + c.length + 1) =
      ((t.length + 1 + c.length + 1 + h.length : Nat) : Int) := by
    unfold idxOfFrom
    rw [hdrop2, idxOfAux_append '|' h _ _ hh]
    push_cast
    ring
  have hidx4 : idxOfFrom L '|' (t.length + 1 + c.length + 1 + h.length + 1) =
      ((t.length + 1 + c.length + 1 + h.length + 1 + w.length : Nat) : Int) := by
    unfold idxOfFrom
    rw [hdrop3, idxOfAux_append '|' w _ _ hw]
    push_cast
    ring
  have ht1 : ((((t.length : Nat) : Int)) + 1).toNat = t.length + 1 := by omega
  have ht2 : ((((t.length + 1 + c.length : Nat) : Int)) + 1).toNat =
      t.length + 1 + c.length + 1 := by omega
  have ht3 : ((((t.length + 1 + c.length + 1 + h.length : Nat) : Int)) + 1).toNat =
      t.length + 1 + c.length + 1 + h.length + 1 := by omega
  have e1 : substrA L 0 ((t.length : Nat) : Int) = t := by
    have h0 := substrA_eq L 0 t.length (Nat.zero_le _) (by omega) hL32
    rw [show ((0 : Nat) : Int) = (0 : Int) from rfl] at h0
    rw [h0, List.drop_zero, hLdef, List.take_left]
  have e2 : substrA L (((t.length : Nat) : Int) + 1)
      ((t.length + 1 + c.length : Nat) : Int) = c := by
    have h0 := substrA_eq L (t.length + 1) (t.length + 1 + c.length)
      (by omega) (by omega) hL32
    rw [show (((t.length : Nat) : Int) + 1) = (((t.length + 1 : Nat) : Nat) : Int) by
      push_cast; ring]
    rw [h0, hLdef]
    have hre : t ++ '|' :: (c ++ '|' :: (h ++ '|' :: (w ++ '|' :: p))) =
        (t ++ ['|']) ++ (c ++ ('|' :: (h ++ '|' :: (w ++ '|' :: p)))) := by simp
    rw [hre, show t.length + 1 + c.length = (t ++ ['|']).length + c.length by simp,
      show t.length + 1 = (t ++ ['|']).length by simp, slice_mid]
  have e3 : substrA L (((t.length + 1 + c.length : Nat) : Int) + 1)
      ((t.length + 1 + c.length + 1 + h.length : Nat) : Int) = h := by
    have h0 := substrA_eq L (t.length + 1 + c.length + 1)
      (t.length + 1 + c.length + 1 + h.length) (by omega) (by omega) hL32
    rw [show (((t.length + 1 + c.length : Nat) : Int) + 1) =
      (((t.length + 1 + c.length + 1 : Nat) : Nat) : Int) by push_cast; ring]
    rw [h0, hLdef]
    have hre : t ++ '|' :: (c ++ '|' :: (h ++ '|' :: (w ++ '|' :: p))) =
        ((t ++ '|' :: c) ++ ['|']) ++ (h ++ ('|' :: (w ++ '|' :: p))) := by simp
    rw [hre,
      show t.length + 1 + c.length + 1 + h.length =
        ((t ++ '|' :: c) ++ ['|']).length + h.length by simp; ring,
      show t.length + 1 + c.length + 1 = ((t ++ '|' :: c) ++ ['|']).length by simp; ring,
      slice_mid]
  have e4 : substrA L (((t.length + 1 + c.length + 1 + h.length : Nat) : Int) + 1)
      ((t.length + 1 + c.length + 1 + h.length + 1 + w.length : Nat) : Int) = w := by
    have h0 := substrA_eq L (t.length + 1 + c.length + 1 + h.length + 1)
      (t.length + 1 + c.length + 1 + h.length + 1 + w.length) (by omega) (by omega) hL32
    rw [show (((t.length + 1 + c.length + 1 + h.length : Nat) : Int) + 1) =
      (((t.length + 1 + c.length + 1 + h.length + 1 : Nat) : Nat) : Int) by
        push_cast; ring]
    rw [h0, hLdef]
    have hre : t ++ '|' :: (c ++ '|' :: (h ++ '|' :: (w ++ '|' :: p))) =
        ((t ++ '|' :: (c ++ '|' :: h)) ++ ['|']) ++ (w ++ ('|' :: p)) := by simp
    rw [hre,
      show t.length + 1 + c.length + 1 + h.length + 1 + w.length =
        ((t ++ '|' :: (c ++ '|' :: h)) ++ ['|']).length + w.length by simp; ring,
      show t.length + 1 + c.length + 1 + h.length + 1 =
        ((t ++ '|' :: (c ++ '|' :: h)) ++ ['|']).length by simp; ring,
      slice_mid]
  have e5 : substrA L
      (((t.length + 1 + c.length + 1 + h.length + 1 + w.length : Nat) : Int) + 1)
      ((L.length : Nat) : Int) = p := by
    have h0 := substrA_eq L (t.length + 1 + c.length + 1 + h.length + 1 + w.length + 1)
      L.length (by omega) le_rfl hL32
    rw [show (((t.length + 1 + c.length + 1 + h.length + 1 + w.length : Nat) : Int) + 1) =
      (((t.length + 1 + c.length + 1 + h.length + 1 + w.length + 1 : Nat) : Nat) : Int) by
        push_cast; ring]
    rw [h0, List.take_length, hdrop4]
  simp only [parseWeatherLine, hidx1, ht1, hidx2, ht2, hidx3, ht3, hidx4]
  rw [if_neg (by omega : ¬(((t.length : Nat) : Int) < 0 ∨
    ((t.length + 1 + c.length : Nat) : Int) < 0 ∨
    ((t.length + 1 + c.length + 1 + h.length : Nat) : Int) < 0 ∨
    ((t.length + 1 + c.length + 1 + h.length + 1 + w.length : Nat) : Int) < 0))]
  simp only [Bool.false_eq_true, if_false, e1, e2, e3, e4, e5, List.length_eq_zero]

/-- Witness for C4 (amended): evaluated at a line with padded temperature
and a whitespace wind field. -/
theorem C4_amended_witness :
    parseWeatherLine (charsOf " +21 " ++ '|' :: (charsOf "Sunny" ++ '|' ::
        (charsOf "45%" ++ '|' :: (charsOf " " ++ '|' :: charsOf "1015hPa")))) false =
      if trimC (charsOf " +21 ") = [] ∨ trimC (charsOf "Sunny") = [] then none
      else some { temp := trimC (charsOf " +21 "), cond := trimC (charsOf "Sunny"),
                  hum := trimC (charsOf "45%"),
                  wind := if charsOf " " = [] then naChars else charsOf " ",
                  press := if charsOf "1015hPa" = [] then naChars else charsOf "1015hPa",
                  sunDawn := [], sunRise := [], sunSet := [], sunDusk := [] } :=
  C4_amended_field_handling _ _ _ _ _ (by decide) (by decide) (by decide) (by decide)
    (by decide)

/-- **C6.** `calculateDisplayBrightness_d` in manual mode with
`dayContrast = 255`, `nightContrast = 1`, sunrise 25200 (07:00), sunset
75600 (21:00), 30-minute ramps, local midnight at epoch 0: at 06:30 (dawn
start) it returns 1, at 07:00 returns 255, at 06:45 returns the midpoint
128, at 12:00 returns 255, at 21:15 returns a value strictly between 1 and
255 (the midpoint 128 of the dusk ramp), and at 23:00 returns 1. -/
theorem C6_brightness_test_vector :
    calculateDisplayBrightness_d contrastConfig initialWeather 0 23400 = 1 ∧
    calculateDisplayBrightness_d contrastConfig initialWeather 0 25200 = 255 ∧
    calculateDisplayBrightness_d contrastConfig initialWeather 0 24300 = 128 ∧
    calculateDisplayBrightness_d contrastConfig initialWeather 0 43200 = 255 ∧
    (1 < calculateDisplayBrightness_d contrastConfig initialWeather 0 76500 ∧
      calculateDisplayBrightness_d contrastConfig initialWeather 0 76500 < 255) ∧
    calculateDisplayBrightness_d contrastConfig initialWeather 0 82800 = 1 := by
  refine ⟨?_, ?_, ?_, ?_, ⟨?_, ?_⟩, ?_⟩ <;>
    norm_num [calculateDisplayBrightness_d, contrastConfig, inRangeW, lerpU8]
  decide
